import Mathlib

/-!
Shallow embedding of `custom_components/template_climate/climate.py`
(the `TemplateClimate` entity of the template-climate integration).

Conventions of the embedding:
* Python `None`-able values become `Option`.
* Floats carried by the code (temperatures, humidity) are only stored and
  compared, never computed with, so they are embedded as `ℚ`.
* A configured template or script is embedded by a `Bool` recording its
  presence (`True` = configured); the code only ever tests these for `None`.
* External side effects (running a script, `async_write_ha_state`) are
  embedded as an explicit event trace emitted by each command handler.
* A Python `ValueError` raised by a command handler is embedded as the
  `error` field of the handler's result; the handler returns the entity
  unchanged with an empty trace in that case, mirroring the fact that the
  exception escapes before any mutation or script call.
-/

/-- HVAC modes, from `homeassistant.components.climate.const.HVACMode`. -/
inductive HVACMode
  | off
  | heat
  | cool
  | heat_cool
  | auto
  | dry
  | fan_only
deriving DecidableEq, Repr

/-- A value passed in a script's `run_variables` map. -/
inductive RunVar
  | vnone
  | vnum (q : ℚ)
  | vstr (s : String)
  | vmode (m : Option HVACMode)
deriving DecidableEq, Repr

/-- An external side effect performed by a command handler: running a
configured script with its variable bindings, or publishing state via
`async_write_ha_state`. -/
inductive Event
  | runScript (script : String) (vars : List (String × RunVar))
  | writeHaState
deriving DecidableEq, Repr

/-- The supported-feature bitmask
(`homeassistant.components.climate.const.ClimateEntityFeature`), embedded as
one `Bool` per capability bit used by this integration. -/
structure ClimateEntityFeature where
  target_temperature : Bool
  target_temperature_range : Bool
  target_humidity : Bool
  fan_mode : Bool
  preset_mode : Bool
  swing_mode : Bool
  turn_off : Bool
  turn_on : Bool
  swing_horizontal_mode : Bool
deriving DecidableEq, Repr

/-- `ClimateEntityFeature(0)`: every capability bit off. -/
def ClimateEntityFeature.zero : ClimateEntityFeature :=
  ⟨false, false, false, false, false, false, false, false, false⟩

/-- The feature-name vocabulary `HVAC_FEATURES` (values of the `HVACFeature`
string enum in `climate.py`). -/
def HVAC_FEATURES : List String :=
  ["turn_on", "turn_off", "target_temperature", "target_temperature_range",
   "target_humidity", "preset_mode", "fan_mode", "swing_mode",
   "swing_horizontal_mode"]

def STATE_UNAVAILABLE : String := "unavailable"

def STATE_UNKNOWN : String := "unknown"

def FAN_OFF : String := "off"

def SWING_OFF : String := "off"

def SWING_HORIZONTAL_OFF : String := "off"

def DEFAULT_INITIAL_HUMIDITY : ℚ := 50

/-!  ### Model of `json.loads`

`json.loads` is standard-library code, not code of this repository; it is
modelled here restricted to the value shapes a feature feed can deliver:
double-quoted strings without escape sequences, integers, `true`/`false`/
`null`, and (arbitrarily nested) arrays of these.  Anything else (including
floats) is a parse error, which `_update_features` treats as `ValueError`.
-/

/-- JSON values produced by the `json.loads` model. -/
inductive JsonVal
  | jstr (s : String)
  | jint (n : Int)
  | jbool (b : Bool)
  | jnull
  | jlist (items : List JsonVal)
deriving Repr

def skipWs : List Char → List Char
  | [] => []
  | c :: rest =>
    if c = ' ' ∨ c = '\t' ∨ c = '\n' ∨ c = '\r' then skipWs rest else c :: rest

/-- Consume characters up to the closing double quote. -/
def parseJsonStringChars : List Char → Option (List Char × List Char)
  | [] => none
  | c :: rest =>
    if c = '"' then some ([], rest)
    else
      match parseJsonStringChars rest with
      | some (s, r) => some (c :: s, r)
      | none => none

def takeDigits : List Char → List Char × List Char
  | [] => ([], [])
  | c :: rest =>
    if c.isDigit then
      let (ds, r) := takeDigits rest
      (c :: ds, r)
    else ([], c :: rest)

def digitsToNat (ds : List Char) : Nat :=
  ds.foldl (fun acc c => acc * 10 + (c.toNat - '0'.toNat)) 0

/-- Drop a literal character sequence, or fail. -/
def dropLit : List Char → List Char → Option (List Char)
  | [], cs => some cs
  | _ :: _, [] => none
  | l :: ls, c :: cs => if c = l then dropLit ls cs else none

mutual

def parseJsonValue : Nat → List Char → Option (JsonVal × List Char)
  | 0, _ => none
  | fuel + 1, cs =>
    match skipWs cs with
    | [] => none
    | c :: rest =>
      if c = '"' then
        match parseJsonStringChars rest with
        | some (s, r) => some (JsonVal.jstr (String.mk s), r)
        | none => none
      else if c = '[' then
        match skipWs rest with
        | ']' :: r => some (JsonVal.jlist [], r)
        | cs2 =>
          match parseJsonItems fuel cs2 with
          | some (items, r) => some (JsonVal.jlist items, r)
          | none => none
      else if c = '-' then
        match takeDigits rest with
        | ([], _) => none
        | (ds, r) => some (JsonVal.jint (-(digitsToNat ds : Int)), r)
      else if c.isDigit then
        let (ds, r) := takeDigits (c :: rest)
        some (JsonVal.jint (digitsToNat ds), r)
      else
        match dropLit ['t', 'r', 'u', 'e'] (c :: rest) with
        | some r => some (JsonVal.jbool true, r)
        | none =>
          match dropLit ['f', 'a', 'l', 's', 'e'] (c :: rest) with
          | some r => some (JsonVal.jbool false, r)
          | none =>
            match dropLit ['n', 'u', 'l', 'l'] (c :: rest) with
            | some r => some (JsonVal.jnull, r)
            | none => none

def parseJsonItems : Nat → List Char → Option (List JsonVal × List Char)
  | 0, _ => none
  | fuel + 1, cs =>
    match parseJsonValue fuel cs with
    | none => none
    | some (v, r) =>
      match skipWs r with
      | ',' :: r2 =>
        match parseJsonItems fuel r2 with
        | some (items, r3) => some (v :: items, r3)
        | none => none
      | ']' :: r2 => some ([v], r2)
      | _ => none

end

/-- Model of `json.loads`: `none` stands for a raised `ValueError`
(`json.JSONDecodeError`). -/
def json_loads (s : String) : Option JsonVal :=
  match parseJsonValue (s.length + 1) s.data with
  | some (v, rest) =>
    match skipWs rest with
    | [] => some v
    | _ :: _ => none
  | none => none

/-- Model of Python `str(...)` applied to a value decoded from JSON. -/
def pyStr : JsonVal → String
  | JsonVal.jstr s => s
  | JsonVal.jint n => toString n
  | JsonVal.jbool b => if b then "True" else "False"
  | JsonVal.jnull => "None"
  | JsonVal.jlist _ => "[...]"

/-!  ### Feature feed handling (`_update_features`, `_update_supported_features`) -/

/-- A raw value delivered by the features template feed: Python `None` or a
string. -/
inductive FeedVal
  | fnone
  | fstr (s : String)
deriving DecidableEq, Repr

/-- Python truthiness of a feed value (`if not value:`). -/
def pyTruthy : FeedVal → Bool
  | FeedVal.fnone => false
  | FeedVal.fstr s => !s.isEmpty

/-- Model of `str(value)` on a feed value. -/
def pyStrOfFeed : FeedVal → String
  | FeedVal.fnone => "None"
  | FeedVal.fstr s => s

/-- The error-log line emitted for an invalid `hvac_features` entry. -/
def featureLogMsg (feature : String) : String :=
  "Received invalid hvac_features: " ++ feature

/-- The `for feature_value in value_list:` loop of `_update_features`:
stringify each entry, keep the ones in the `HVAC_FEATURES` vocabulary, and
emit an error log for each entry that is not.  Returns (kept features, logs). -/
def featureFilter : List JsonVal → List String × List String
  | [] => ([], [])
  | fv :: rest =>
    let feature := pyStr fv
    let r := featureFilter rest
    if HVAC_FEATURES.contains feature then (feature :: r.1, r.2)
    else (r.1, featureLogMsg feature :: r.2)

/-- `_update_supported_features`: recompute the supported-feature bitmask
from the stored `_attr_hvac_features` list (`or []` when `None`).  The source
builds the mask by OR-ing one bit per membership test; each bit is set
exactly when its feature name is in the list, which is what the record
literal states field by field. -/
def _update_supported_features (hvac_features : Option (List String)) :
    ClimateEntityFeature :=
  let features := hvac_features.getD []
  { turn_on := features.contains "turn_on"
    turn_off := features.contains "turn_off"
    target_temperature := features.contains "target_temperature"
    target_temperature_range := features.contains "target_temperature_range"
    target_humidity := features.contains "target_humidity"
    preset_mode := features.contains "preset_mode"
    fan_mode := features.contains "fan_mode"
    swing_mode := features.contains "swing_mode"
    swing_horizontal_mode := features.contains "swing_horizontal_mode" }

/-- The slice of entity state touched by the feature feed. -/
structure FeaturesState where
  attr_hvac_features : Option (List String)
  attr_supported_features : ClimateEntityFeature
deriving DecidableEq, Repr

/-- `_update_features`: handle one delivery of the features feed.
Returns the new state together with the error-log lines emitted.
Note the falsy branch assigns `[]` to `_attr_hvac_features` and returns
early, without calling `_update_supported_features`. -/
def _update_features (value : FeedVal) (st : FeaturesState) :
    FeaturesState × List String :=
  if pyTruthy value = false then
    ({ st with attr_hvac_features := some [] }, [])
  else
    let string_value := pyStrOfFeed value
    match json_loads string_value with
    | some (JsonVal.jlist value_json) =>
      let (features, logs) := featureFilter value_json
      ({ attr_hvac_features := some features
         attr_supported_features := _update_supported_features (some features) },
       logs)
    | some _ => (st, [featureLogMsg string_value])
    | none =>
      let (features, logs) := featureFilter [JsonVal.jstr string_value]
      ({ attr_hvac_features := some features
         attr_supported_features := _update_supported_features (some features) },
       logs)

/-!  ### Enum feed handling (`_update_enum`) -/

/-- `_update_enum` with the valid-value list already resolved (the source
resolves a string argument through `getattr` first).  Returns the value
stored into the attribute and whether an error was logged.  A value inside
the valid set is stored; the sentinels clear the attribute to `None`; any
other value is logged as an error and the attribute is also set to `None`. -/
def _update_enum (valid_values : List String) (value : String) :
    Option String × Bool :=
  if value ∈ valid_values then (some value, false)
  else if value = STATE_UNAVAILABLE ∨ value = STATE_UNKNOWN then (none, false)
  else (none, true)

/-!  ### The entity and its construction -/

/-- The fields of a `TemplateClimate` entity the modelled claims touch.
Template and script fields are `true` when the corresponding `Template` /
`Script` object is set (non-`None`). -/
structure Entity where
  optimistic : Bool
  target_temperature_template : Bool
  target_temperature_low_template : Bool
  target_temperature_high_template : Bool
  target_humidity_template : Bool
  hvac_mode_template : Bool
  hvac_features_template : Bool
  preset_mode_template : Bool
  fan_mode_template : Bool
  swing_mode_template : Bool
  swing_horizontal_mode_template : Bool
  set_temperature_script : Bool
  set_humidity_script : Bool
  set_hvac_mode_script : Bool
  set_preset_mode_script : Bool
  set_fan_mode_script : Bool
  set_swing_mode_script : Bool
  set_swing_horizontal_mode_script : Bool
  attr_hvac_modes : List HVACMode
  attr_preset_modes : List String
  attr_fan_modes : List String
  attr_swing_modes : List String
  attr_swing_horizontal_modes : List String
  attr_hvac_mode : Option HVACMode
  attr_target_temperature : Option ℚ
  attr_target_temperature_low : Option ℚ
  attr_target_temperature_high : Option ℚ
  attr_target_humidity : Option ℚ
  attr_preset_mode : Option String
  attr_fan_mode : Option String
  attr_swing_mode : Option String
  attr_swing_horizontal_mode : Option String
  attr_hvac_features : Option (List String)
  attr_supported_features : ClimateEntityFeature
deriving DecidableEq, Repr

/-- Validated platform configuration: which templates and actions the user
configured (presence flags), the value lists (schema defaults already
applied), and the initial values. -/
structure Config where
  optimistic : Bool
  target_temperature_template : Bool
  target_temperature_low_template : Bool
  target_temperature_high_template : Bool
  target_humidity_template : Bool
  hvac_mode_template : Bool
  features_template : Bool
  preset_mode_template : Bool
  fan_mode_template : Bool
  swing_mode_template : Bool
  swing_horizontal_mode_template : Bool
  set_temperature : Bool
  set_humidity : Bool
  set_hvac_mode : Bool
  set_preset_mode : Bool
  set_fan_mode : Bool
  set_swing_mode : Bool
  set_swing_horizontal_mode : Bool
  modes : List HVACMode
  preset_modes : List String
  fan_modes : List String
  swing_modes : List String
  swing_horizontal_modes : List String
  initial : Option ℚ
  initial_humidity : Option ℚ
deriving DecidableEq, Repr

/-- `_init_values`, `_init_templates` and `_init_scripts` combined: the
entity right after those three initializers, before `_init_features` and
`_init_optimistic_state` run.  Two fields are NOT initialized from the
configuration in the source and therefore keep their class-level default
`None`: `_init_templates` never reads `swing_horizontal_mode_template`, and
`_init_scripts` never reads the `set_swing_horizontal_mode` action. -/
def baseEntity (cfg : Config) : Entity :=
  { optimistic := cfg.optimistic
    target_temperature_template := cfg.target_temperature_template
    target_temperature_low_template := cfg.target_temperature_low_template
    target_temperature_high_template := cfg.target_temperature_high_template
    target_humidity_template := cfg.target_humidity_template
    hvac_mode_template := cfg.hvac_mode_template
    hvac_features_template := cfg.features_template
    preset_mode_template := cfg.preset_mode_template
    fan_mode_template := cfg.fan_mode_template
    swing_mode_template := cfg.swing_mode_template
    swing_horizontal_mode_template := false
    set_temperature_script := cfg.set_temperature
    set_humidity_script := cfg.set_humidity
    set_hvac_mode_script := cfg.set_hvac_mode
    set_preset_mode_script := cfg.set_preset_mode
    set_fan_mode_script := cfg.set_fan_mode
    set_swing_mode_script := cfg.set_swing_mode
    set_swing_horizontal_mode_script := false
    attr_hvac_modes := cfg.modes
    attr_preset_modes := cfg.preset_modes
    attr_fan_modes := cfg.fan_modes
    attr_swing_modes := cfg.swing_modes
    attr_swing_horizontal_modes := cfg.swing_horizontal_modes
    attr_hvac_mode := none
    attr_target_temperature := none
    attr_target_temperature_low := none
    attr_target_temperature_high := none
    attr_target_humidity := none
    attr_preset_mode := none
    attr_fan_mode := none
    attr_swing_mode := none
    attr_swing_horizontal_mode := none
    attr_hvac_features := none
    attr_supported_features := ClimateEntityFeature.zero }

/-- `_init_features`: when no features template is configured, derive the
static supported-feature bitmask.  The source ORs one bit per condition
into a mask initialized to `TURN_ON | TURN_OFF`; since each bit is touched
by exactly one condition, the record literal states the same mask field by
field.  When a features template is configured the method returns at once
and the mask keeps the inherited default `ClimateEntityFeature(0)`. -/
def _init_features (e : Entity) : Entity :=
  { e with
    attr_supported_features :=
      if e.hvac_features_template then e.attr_supported_features
      else
        { turn_on := true
          turn_off := true
          target_temperature :=
            e.optimistic || e.target_temperature_template ||
              e.set_temperature_script
          target_temperature_range :=
            e.optimistic || e.target_temperature_low_template ||
              e.target_temperature_high_template || e.set_temperature_script
          target_humidity :=
            e.target_humidity_template || e.set_humidity_script
          preset_mode := e.preset_mode_template || e.set_preset_mode_script
          fan_mode := e.fan_mode_template || e.set_fan_mode_script
          swing_mode := e.swing_mode_template || e.set_swing_mode_script
          swing_horizontal_mode :=
            e.swing_horizontal_mode_template ||
              e.set_swing_horizontal_mode_script } }

/-- `_init_optimistic_state`: seed initial attribute values for every
attribute that is command-governed (no template) or optimistic.
`converted_default_temp` is the result of the external
`TemperatureConverter.convert(21.0, CELSIUS, self.temperature_unit)` call.
Each guarded assignment targets a distinct attribute and its guard only
reads configuration fields, so the assignments are stated as one record
update. -/
def _init_optimistic_state (cfg : Config) (converted_default_temp : ℚ)
    (e : Entity) : Entity :=
  let init_temp := cfg.initial.getD converted_default_temp
  { e with
    attr_target_temperature :=
      if !e.target_temperature_template || e.optimistic then some init_temp
      else e.attr_target_temperature
    attr_target_temperature_low :=
      if !e.target_temperature_low_template || e.optimistic then some init_temp
      else e.attr_target_temperature_low
    attr_target_temperature_high :=
      if !e.target_temperature_high_template || e.optimistic then some init_temp
      else e.attr_target_temperature_high
    attr_target_humidity :=
      if !e.target_humidity_template || e.optimistic then
        some (cfg.initial_humidity.getD DEFAULT_INITIAL_HUMIDITY)
      else e.attr_target_humidity
    attr_hvac_mode :=
      if (!e.hvac_mode_template || e.optimistic) &&
          decide (HVACMode.off ∈ e.attr_hvac_modes) then some HVACMode.off
      else e.attr_hvac_mode
    attr_fan_mode :=
      if (!e.fan_mode_template || e.optimistic) &&
          decide (FAN_OFF ∈ e.attr_fan_modes) then some FAN_OFF
      else e.attr_fan_mode
    attr_swing_mode :=
      if (!e.swing_mode_template || e.optimistic) &&
          decide (SWING_OFF ∈ e.attr_swing_modes) then some SWING_OFF
      else e.attr_swing_mode
    attr_swing_horizontal_mode :=
      if (!e.swing_horizontal_mode_template || e.optimistic) &&
          decide (SWING_HORIZONTAL_OFF ∈ e.attr_swing_horizontal_modes) then
        some SWING_HORIZONTAL_OFF
      else e.attr_swing_horizontal_mode }

/-- `TemplateClimate.__init__`: run the initializers in source order. -/
def initEntity (cfg : Config) (converted_default_temp : ℚ) : Entity :=
  _init_optimistic_state cfg converted_default_temp
    (_init_features (baseEntity cfg))

/-!  ### Public setpoint properties -/

/-- The `target_temperature` property: absent in `HEAT_COOL` mode. -/
def target_temperature (e : Entity) : Option ℚ :=
  if e.attr_hvac_mode = some HVACMode.heat_cool then none
  else e.attr_target_temperature

/-- The `target_temperature_low` property: absent outside `HEAT_COOL`. -/
def target_temperature_low (e : Entity) : Option ℚ :=
  if e.attr_hvac_mode ≠ some HVACMode.heat_cool then none
  else e.attr_target_temperature_low

/-- The `target_temperature_high` property: absent outside `HEAT_COOL`. -/
def target_temperature_high (e : Entity) : Option ℚ :=
  if e.attr_hvac_mode ≠ some HVACMode.heat_cool then none
  else e.attr_target_temperature_high

/-!  ### Command handlers -/

/-- Result of one command handler call: the entity afterwards, the external
side effects performed (in order), and the `ValueError` message when the
handler raised. -/
structure CmdResult where
  entity : Entity
  events : List Event
  error : Option String
deriving DecidableEq, Repr

/-- Encode an optional float command argument as a run variable. -/
def rvOfOpt : Option ℚ → RunVar
  | none => RunVar.vnone
  | some q => RunVar.vnum q

/-- `async_set_hvac_mode`: run the configured action if any, then apply the
optimistic local update when no hvac-mode template governs the attribute (or
the entity is optimistic) and the commanded mode differs from the current
one. -/
def async_set_hvac_mode (e : Entity) (hvac_mode : HVACMode) : CmdResult :=
  let events :=
    if e.set_hvac_mode_script then
      [Event.runScript "set_hvac_mode"
        [("hvac_mode", RunVar.vmode (some hvac_mode))]]
    else []
  if (e.optimistic || !e.hvac_mode_template) &&
      decide (some hvac_mode ≠ e.attr_hvac_mode) then
    { entity := { e with attr_hvac_mode := some hvac_mode }
      events := events ++ [Event.writeHaState]
      error := none }
  else
    { entity := e, events := events, error := none }

/-- `async_set_humidity`. -/
def async_set_humidity (e : Entity) (humidity : ℚ) : CmdResult :=
  let events :=
    if e.set_humidity_script then
      [Event.runScript "set_humidity" [("humidity", RunVar.vnum humidity)]]
    else []
  if e.optimistic || !e.target_humidity_template then
    { entity := { e with attr_target_humidity := some humidity }
      events := events ++ [Event.writeHaState]
      error := none }
  else
    { entity := e, events := events, error := none }

/-- `async_set_preset_mode`. -/
def async_set_preset_mode (e : Entity) (preset_mode : String) : CmdResult :=
  let events :=
    if e.set_preset_mode_script then
      [Event.runScript "set_preset_mode"
        [("preset_mode", RunVar.vstr preset_mode)]]
    else []
  if e.optimistic || !e.preset_mode_template then
    { entity := { e with attr_preset_mode := some preset_mode }
      events := events ++ [Event.writeHaState]
      error := none }
  else
    { entity := e, events := events, error := none }

/-- `async_set_fan_mode`. -/
def async_set_fan_mode (e : Entity) (fan_mode : String) : CmdResult :=
  let events :=
    if e.set_fan_mode_script then
      [Event.runScript "set_fan_mode" [("fan_mode", RunVar.vstr fan_mode)]]
    else []
  if e.optimistic || !e.fan_mode_template then
    { entity := { e with attr_fan_mode := some fan_mode }
      events := events ++ [Event.writeHaState]
      error := none }
  else
    { entity := e, events := events, error := none }

/-- `async_set_swing_mode`. -/
def async_set_swing_mode (e : Entity) (swing_mode : String) : CmdResult :=
  let events :=
    if e.set_swing_mode_script then
      [Event.runScript "set_swing_mode"
        [("swing_mode", RunVar.vstr swing_mode)]]
    else []
  if e.optimistic || !e.swing_mode_template then
    { entity := { e with attr_swing_mode := some swing_mode }
      events := events ++ [Event.writeHaState]
      error := none }
  else
    { entity := e, events := events, error := none }

/-- `async_set_swing_horizontal_mode`. -/
def async_set_swing_horizontal_mode (e : Entity)
    (swing_horizontal_mode : String) : CmdResult :=
  let events :=
    if e.set_swing_horizontal_mode_script then
      [Event.runScript "set_swing_horizontal_mode"
        [("swing_horizontal_mode", RunVar.vstr swing_horizontal_mode)]]
    else []
  if e.optimistic || !e.swing_horizontal_mode_template then
    { entity := { e with attr_swing_horizontal_mode := some swing_horizontal_mode }
      events := events ++ [Event.writeHaState]
      error := none }
  else
    { entity := e, events := events, error := none }

/-- `_validate_set_temperature_arguments`: the setpoint-shape check.
Returns the `ValueError` message when the check fails, `none` otherwise. -/
def _validate_set_temperature_arguments (e : Entity)
    (hvac_mode : Option HVACMode)
    (temperature temperature_low temperature_high : Option ℚ) :
    Option String :=
  let is_heat_cool : Bool :=
    decide (hvac_mode = some HVACMode.heat_cool) ||
      (decide (hvac_mode = none) &&
        decide (e.attr_hvac_mode = some HVACMode.heat_cool))
  if is_heat_cool && temperature_low.isNone then
    some "Missing target_temp_low value in heat_cool mode"
  else if is_heat_cool && temperature_high.isNone then
    some "Missing target_temp_high value in heat_cool mode"
  else if is_heat_cool && temperature.isSome then
    some "temperature cannot be set in heat_cool mode"
  else if !is_heat_cool && (temperature_low.isSome || temperature_high.isSome) then
    some "target_temp_low and target_temp_high can only be set in heat_cool mode"
  else
    none

/-- `_set_temperature_attribute`: store the setpoint when the entity is
optimistic or the corresponding template is absent.  Returns the new stored
value and whether it was written. -/
def _set_temperature_attribute (optimistic template_configured : Bool)
    (temp : Option ℚ) (current : Option ℚ) : Option ℚ × Bool :=
  match temp with
  | none => (current, false)
  | some t =>
    if optimistic || !template_configured then (some t, true)
    else (current, false)

/-- `async_set_temperature`: validate the setpoint shape first (a failure
raises before anything else runs), then forward a known requested mode to
`async_set_hvac_mode`, then run the configured action, then apply the
optimistic setpoint updates and publish when anything changed. -/
def async_set_temperature (e : Entity) (hvac_mode : Option HVACMode)
    (temperature temperature_low temperature_high : Option ℚ) : CmdResult :=
  match _validate_set_temperature_arguments e hvac_mode temperature
      temperature_low temperature_high with
  | some msg => { entity := e, events := [], error := some msg }
  | none =>
    let modeRes : CmdResult :=
      match hvac_mode with
      | some hm =>
        if hm ∈ e.attr_hvac_modes then async_set_hvac_mode e hm
        else { entity := e, events := [], error := none }
      | none => { entity := e, events := [], error := none }
    let e1 := modeRes.entity
    let scriptEvents :=
      if e1.set_temperature_script then
        [Event.runScript "set_temperature"
          [("hvac_mode", RunVar.vmode hvac_mode),
           ("temperature", rvOfOpt temperature),
           ("target_temp_low", rvOfOpt temperature_low),
           ("target_temp_high", rvOfOpt temperature_high)]]
      else []
    let r1 :=
      if (e1.optimistic || !e1.target_temperature_template) &&
          temperature.isSome then
        _set_temperature_attribute e1.optimistic e1.target_temperature_template
          temperature e1.attr_target_temperature
      else (e1.attr_target_temperature, false)
    let r2 :=
      if (e1.optimistic || !e1.target_temperature_low_template) &&
          temperature_low.isSome then
        _set_temperature_attribute e1.optimistic
          e1.target_temperature_low_template temperature_low
          e1.attr_target_temperature_low
      else (e1.attr_target_temperature_low, false)
    let r3 :=
      if (e1.optimistic || !e1.target_temperature_high_template) &&
          temperature_high.isSome then
        _set_temperature_attribute e1.optimistic
          e1.target_temperature_high_template temperature_high
          e1.attr_target_temperature_high
      else (e1.attr_target_temperature_high, false)
    let changed := r1.2 || r2.2 || r3.2
    { entity :=
        { e1 with
          attr_target_temperature := r1.1
          attr_target_temperature_low := r2.1
          attr_target_temperature_high := r3.1 }
      events :=
        modeRes.events ++ scriptEvents ++
          (if changed then [Event.writeHaState] else [])
      error := none }

/-!  ### State restore (`async_added_to_hass`, features part) -/

/-- A saved `hvac_features` attribute value as found in the restored state:
either a bare string or a list of strings. -/
inductive AttrVal
  | astr (s : String)
  | alist (l : List String)
deriving DecidableEq, Repr

/-- Python membership test `x in HVAC_FEATURES` for a saved attribute value:
only a bare string can be a member of a list of strings; a list or a missing
value never is. -/
def py_in_string_list : Option AttrVal → List String → Bool
  | some (AttrVal.astr s), l => l.contains s
  | _, _ => false

/-- The features-restore step of `async_added_to_hass`: when a features
template is configured and the saved `hvac_features` attribute passes the
membership test against `HVAC_FEATURES`, assign it to
`_attr_hvac_features` and recompute the bitmask.  The guard can only pass
for a bare string equal to one vocabulary entry; in that arm the wrapping
into a one-element list stands in for Python's untyped assignment of the
raw value into the `list[str]` field.  The other arms of `restored` are
unreachable under the guard. -/
def restore_hvac_features (e : Entity) (last_hvac_features : Option AttrVal) :
    Entity :=
  if e.hvac_features_template &&
      py_in_string_list last_hvac_features HVAC_FEATURES then
    let restored : Option (List String) :=
      match last_hvac_features with
      | some (AttrVal.astr s) => some [s]
      | some (AttrVal.alist l) => some l
      | none => none
    { e with
      attr_hvac_features := restored
      attr_supported_features := _update_supported_features restored }
  else e

/-!  ### Concrete baseline values used by witnesses and counterexamples -/

/-- A minimal configuration: nothing optional configured, schema-default
value lists. -/
def cfg0 : Config :=
  { optimistic := false
    target_temperature_template := false
    target_temperature_low_template := false
    target_temperature_high_template := false
    target_humidity_template := false
    hvac_mode_template := false
    features_template := false
    preset_mode_template := false
    fan_mode_template := false
    swing_mode_template := false
    swing_horizontal_mode_template := false
    set_temperature := false
    set_humidity := false
    set_hvac_mode := false
    set_preset_mode := false
    set_fan_mode := false
    set_swing_mode := false
    set_swing_horizontal_mode := false
    modes := [HVACMode.auto, HVACMode.heat]
    preset_modes := []
    fan_modes := ["off", "on"]
    swing_modes := ["on", "off"]
    swing_horizontal_modes := ["on", "off"]
    initial := none
    initial_humidity := none }

/-- A minimal entity: nothing configured, no attribute values yet. -/
def entity0 : Entity :=
  { optimistic := false
    target_temperature_template := false
    target_temperature_low_template := false
    target_temperature_high_template := false
    target_humidity_template := false
    hvac_mode_template := false
    hvac_features_template := false
    preset_mode_template := false
    fan_mode_template := false
    swing_mode_template := false
    swing_horizontal_mode_template := false
    set_temperature_script := false
    set_humidity_script := false
    set_hvac_mode_script := false
    set_preset_mode_script := false
    set_fan_mode_script := false
    set_swing_mode_script := false
    set_swing_horizontal_mode_script := false
    attr_hvac_modes := [HVACMode.auto, HVACMode.heat]
    attr_preset_modes := []
    attr_fan_modes := ["off", "on"]
    attr_swing_modes := ["on", "off"]
    attr_swing_horizontal_modes := ["on", "off"]
    attr_hvac_mode := none
    attr_target_temperature := none
    attr_target_temperature_low := none
    attr_target_temperature_high := none
    attr_target_humidity := none
    attr_preset_mode := none
    attr_fan_mode := none
    attr_swing_mode := none
    attr_swing_horizontal_mode := none
    attr_hvac_features := none
    attr_supported_features := ClimateEntityFeature.zero }

/-!  ### Theorems -/

/-- C3: in every entity state, `target_temperature` reads as absent exactly
when the current hvac mode is `HEAT_COOL`, and `target_temperature_low` /
`target_temperature_high` read as absent whenever it is not. -/
theorem setpoint_exclusivity (e : Entity) :
    (e.attr_hvac_mode = some HVACMode.heat_cool → target_temperature e = none) ∧
    (e.attr_hvac_mode ≠ some HVACMode.heat_cool →
      target_temperature_low e = none ∧ target_temperature_high e = none) := by
  constructor
  · intro h
    simp [target_temperature, h]
  · intro h
    simp [target_temperature_low, target_temperature_high, h]

theorem setpoint_exclusivity_witness :
    target_temperature { entity0 with attr_hvac_mode := some HVACMode.heat_cool } =
        none ∧
      target_temperature_low entity0 = none :=
  ⟨(setpoint_exclusivity _).1 rfl, ((setpoint_exclusivity entity0).2 (by decide)).1⟩

/-- C4 counterexample: the valid-value set is ["heat", "cool"] and the prior
stored value is "heat"; delivering the invalid value "bogus" logs an error
but stores `None`, so the stored value does NOT stay unchanged as the claim
states. -/
theorem update_enum_invalid_counterexample :
    _update_enum ["heat", "cool"] "bogus" = (none, true) ∧
      (none : Option String) ≠ some "heat" := by
  decide

/-- C4 (amended): delivering a value outside the configured valid-value set,
other than the sentinels, logs an error and clears the stored value to
absent (`None`) — the same clearing as a sentinel; a sentinel clears it
without an error. -/
theorem update_enum_invalid_clears (valid_values : List String) (value : String)
    (hmem : value ∉ valid_values) :
    (value ≠ STATE_UNAVAILABLE ∧ value ≠ STATE_UNKNOWN →
      _update_enum valid_values value = (none, true)) ∧
    ((value = STATE_UNAVAILABLE ∨ value = STATE_UNKNOWN) →
      _update_enum valid_values value = (none, false)) := by
  constructor
  · rintro ⟨h1, h2⟩
    unfold _update_enum
    rw [if_neg hmem, if_neg]
    rintro (h | h) <;> contradiction
  · intro h
    unfold _update_enum
    rw [if_neg hmem, if_pos h]

theorem update_enum_invalid_clears_witness :
    _update_enum ["heat", "cool"] "unavailable" = (none, false) :=
  (update_enum_invalid_clears ["heat", "cool"] "unavailable" (by decide)).2
    (Or.inl rfl)

/-- C7 counterexample: starting from the state produced by a prior feed of
`["fan_mode"]`. -/
def stC7 : FeaturesState :=
  { attr_hvac_features := some ["fan_mode"]
    attr_supported_features := _update_supported_features (some ["fan_mode"]) }

/-- C7 counterexample: a falsy delivery (the empty string) empties the stored
feature list, but the supported-feature bitmask still has FAN_MODE on — it
is not recomputed, contradicting the claim that all capabilities end up
off. -/
theorem update_features_falsy_counterexample :
    (_update_features (FeedVal.fstr "") stC7).1.attr_hvac_features = some [] ∧
      (_update_features (FeedVal.fstr "") stC7).1.attr_supported_features.fan_mode =
        true := by
  decide

/-- C7 (amended): a falsy (empty or absent) feed value sets the stored
feature list to empty and returns early WITHOUT recomputing the
supported-feature bitmask, which keeps its prior value; no error is
logged. -/
theorem update_features_falsy_keeps_bitmask (value : FeedVal)
    (st : FeaturesState) (h : pyTruthy value = false) :
    _update_features value st = ({ st with attr_hvac_features := some [] }, []) := by
  unfold _update_features
  rw [if_pos h]

theorem update_features_falsy_keeps_bitmask_witness :
    _update_features FeedVal.fnone stC7 =
      ({ stC7 with attr_hvac_features := some [] }, []) :=
  update_features_falsy_keeps_bitmask FeedVal.fnone stC7 rfl

/-- C8 counterexample configuration: a single configured mode, `heat`. -/
def cfgC8 : Config := { cfg0 with modes := [HVACMode.heat] }

/-- C8 counterexample: with exactly one configured mode which is not `off`
and no features template, the statically derived bitmask still contains
TURN_ON and TURN_OFF, contradicting the claimed mode-count condition. -/
theorem static_features_single_mode_counterexample :
    cfgC8.modes = [HVACMode.heat] ∧
      (initEntity cfgC8 21).attr_supported_features.turn_on = true ∧
      (initEntity cfgC8 21).attr_supported_features.turn_off = true := by
  decide

/-- C8 (amended): in static feature derivation (no features template
configured), TURN_ON and TURN_OFF are unconditionally present in the derived
bitmask, regardless of how many HVAC modes are configured or whether `off`
is among them. -/
theorem static_features_turn_on_off_unconditional (cfg : Config) (q : ℚ)
    (h : cfg.features_template = false) :
    (initEntity cfg q).attr_supported_features.turn_on = true ∧
      (initEntity cfg q).attr_supported_features.turn_off = true := by
  constructor <;>
    simp [initEntity, _init_optimistic_state, _init_features, baseEntity, h]

theorem static_features_turn_on_off_unconditional_witness :
    (initEntity cfg0 21).attr_supported_features.turn_on = true ∧
      (initEntity cfg0 21).attr_supported_features.turn_off = true :=
  static_features_turn_on_off_unconditional cfg0 21 rfl

/-- C9 (code bug): restoring a saved `hvac_features` attribute that is a
list of recognized feature names does nothing — the guard tests the saved
value for membership in `HVAC_FEATURES` (a list of strings), which a list
value never passes, so neither the stored feature list nor the bitmask is
touched. -/
theorem restore_features_list_not_restored (e : Entity) (l : List String)
    (hT : e.hvac_features_template = true)
    (hl : ∀ s ∈ l, s ∈ HVAC_FEATURES) :
    restore_hvac_features e (some (AttrVal.alist l)) = e := by
  unfold restore_hvac_features
  simp [py_in_string_list]

/-- C9 witness entity: a features template is configured. -/
def entC9 : Entity := { entity0 with hvac_features_template := true }

theorem restore_features_list_not_restored_witness :
    restore_hvac_features entC9 (some (AttrVal.alist ["turn_on"])) = entC9 :=
  restore_features_list_not_restored entC9 ["turn_on"] rfl (by decide)

/-- C5 (code bug): `_init_scripts` never initializes
`_set_swing_horizontal_mode_script` from the configuration, so even when the
configuration includes a `set_swing_horizontal_mode` action, every
constructed entity has no such script and `async_set_swing_horizontal_mode`
never invokes any external action. -/
theorem swing_horizontal_script_never_invoked (cfg : Config) (q : ℚ)
    (m : String) (hconf : cfg.set_swing_horizontal_mode = true) :
    (initEntity cfg q).set_swing_horizontal_mode_script = false ∧
    ∀ s vars, Event.runScript s vars ∉
      (async_set_swing_horizontal_mode (initEntity cfg q) m).events := by
  constructor
  · rfl
  · intro s vars
    simp [async_set_swing_horizontal_mode, initEntity, _init_optimistic_state,
      _init_features, baseEntity]

/-- C5 witness configuration: the `set_swing_horizontal_mode` action is
configured. -/
def cfgC5 : Config := { cfg0 with set_swing_horizontal_mode := true }

theorem swing_horizontal_script_never_invoked_witness :
    (initEntity cfgC5 21).set_swing_horizontal_mode_script = false ∧
      Event.runScript "set_swing_horizontal_mode"
          [("swing_horizontal_mode", RunVar.vstr "on")] ∉
        (async_set_swing_horizontal_mode (initEntity cfgC5 21) "on").events := by
  have h := swing_horizontal_script_never_invoked cfgC5 21 "on" rfl
  exact ⟨h.1, h.2 _ _⟩

/-- C2: for each of the five single-value commands, called with a value that
differs from the current attribute value: when the entity is optimistic or
no template governs that attribute, the local attribute takes the commanded
value and a state publish is signaled; when a template governs the attribute
and the entity is not optimistic, the local attribute is unchanged and no
publish is signaled. -/
theorem commands_optimistic_vs_template
    (e : Entity) (hm : HVACMode) (hum : ℚ) (pm fm sm : String)
    (hhm : some hm ≠ e.attr_hvac_mode)
    (hhum : some hum ≠ e.attr_target_humidity)
    (hpm : some pm ≠ e.attr_preset_mode)
    (hfm : some fm ≠ e.attr_fan_mode)
    (hsm : some sm ≠ e.attr_swing_mode) :
    (((e.optimistic = true ∨ e.hvac_mode_template = false) →
        (async_set_hvac_mode e hm).entity.attr_hvac_mode = some hm ∧
          Event.writeHaState ∈ (async_set_hvac_mode e hm).events) ∧
      (e.optimistic = false → e.hvac_mode_template = true →
        (async_set_hvac_mode e hm).entity.attr_hvac_mode = e.attr_hvac_mode ∧
          Event.writeHaState ∉ (async_set_hvac_mode e hm).events)) ∧
    (((e.optimistic = true ∨ e.target_humidity_template = false) →
        (async_set_humidity e hum).entity.attr_target_humidity = some hum ∧
          Event.writeHaState ∈ (async_set_humidity e hum).events) ∧
      (e.optimistic = false → e.target_humidity_template = true →
        (async_set_humidity e hum).entity.attr_target_humidity =
            e.attr_target_humidity ∧
          Event.writeHaState ∉ (async_set_humidity e hum).events)) ∧
    (((e.optimistic = true ∨ e.preset_mode_template = false) →
        (async_set_preset_mode e pm).entity.attr_preset_mode = some pm ∧
          Event.writeHaState ∈ (async_set_preset_mode e pm).events) ∧
      (e.optimistic = false → e.preset_mode_template = true →
        (async_set_preset_mode e pm).entity.attr_preset_mode =
            e.attr_preset_mode ∧
          Event.writeHaState ∉ (async_set_preset_mode e pm).events)) ∧
    (((e.optimistic = true ∨ e.fan_mode_template = false) →
        (async_set_fan_mode e fm).entity.attr_fan_mode = some fm ∧
          Event.writeHaState ∈ (async_set_fan_mode e fm).events) ∧
      (e.optimistic = false → e.fan_mode_template = true →
        (async_set_fan_mode e fm).entity.attr_fan_mode = e.attr_fan_mode ∧
          Event.writeHaState ∉ (async_set_fan_mode e fm).events)) ∧
    (((e.optimistic = true ∨ e.swing_mode_template = false) →
        (async_set_swing_mode e sm).entity.attr_swing_mode = some sm ∧
          Event.writeHaState ∈ (async_set_swing_mode e sm).events) ∧
      (e.optimistic = false → e.swing_mode_template = true →
        (async_set_swing_mode e sm).entity.attr_swing_mode = e.attr_swing_mode ∧
          Event.writeHaState ∉ (async_set_swing_mode e sm).events)) := by
  refine ⟨⟨?_, ?_⟩, ⟨?_, ?_⟩, ⟨?_, ?_⟩, ⟨?_, ?_⟩, ⟨?_, ?_⟩⟩
  · rintro (h | h) <;>
      · constructor <;> simp [async_set_hvac_mode, h, hhm]
  · intro h1 h2
    constructor
    · simp [async_set_hvac_mode, h1, h2]
    · cases hs : e.set_hvac_mode_script <;>
        simp [async_set_hvac_mode, h1, h2, hs]
  · rintro (h | h) <;>
      · constructor <;> simp [async_set_humidity, h]
  · intro h1 h2
    constructor
    · simp [async_set_humidity, h1, h2]
    · cases hs : e.set_humidity_script <;>
        simp [async_set_humidity, h1, h2, hs]
  · rintro (h | h) <;>
      · constructor <;> simp [async_set_preset_mode, h]
  · intro h1 h2
    constructor
    · simp [async_set_preset_mode, h1, h2]
    · cases hs : e.set_preset_mode_script <;>
        simp [async_set_preset_mode, h1, h2, hs]
  · rintro (h | h) <;>
      · constructor <;> simp [async_set_fan_mode, h]
  · intro h1 h2
    constructor
    · simp [async_set_fan_mode, h1, h2]
    · cases hs : e.set_fan_mode_script <;>
        simp [async_set_fan_mode, h1, h2, hs]
  · rintro (h | h) <;>
      · constructor <;> simp [async_set_swing_mode, h]
  · intro h1 h2
    constructor
    · simp [async_set_swing_mode, h1, h2]
    · cases hs : e.set_swing_mode_script <;>
        simp [async_set_swing_mode, h1, h2, hs]

theorem commands_optimistic_vs_template_witness :
    (async_set_hvac_mode entity0 HVACMode.cool).entity.attr_hvac_mode =
        some HVACMode.cool ∧
      Event.writeHaState ∈ (async_set_hvac_mode entity0 HVACMode.cool).events := by
  have h := commands_optimistic_vs_template entity0 HVACMode.cool 40 "eco"
    "high" "both" (by decide) (by decide) (by decide) (by decide) (by decide)
  exact h.1.1 (Or.inr rfl)

/-- C6: the feature feed handler.  The three vocabulary scenarios from any
prior state: a JSON list feed yields exactly the recognized entries and
their bits (here TURN_ON and FAN_MODE); a non-JSON bare string is treated as
a single feature name; an unrecognized entry yields the empty list and mask
with an error log rather than a failure.  In general, the entry loop keeps
exactly the entries in the `HVAC_FEATURES` vocabulary and logs an error for
each one it drops. -/
theorem update_features_vocabulary :
    ((∀ st, _update_features (FeedVal.fstr "[\"turn_on\",\"fan_mode\"]") st =
        ({ attr_hvac_features := some ["turn_on", "fan_mode"]
           attr_supported_features :=
             { ClimateEntityFeature.zero with turn_on := true, fan_mode := true } },
         [])) ∧
      (∀ st, _update_features (FeedVal.fstr "turn_on") st =
        ({ attr_hvac_features := some ["turn_on"]
           attr_supported_features :=
             { ClimateEntityFeature.zero with turn_on := true } },
         [])) ∧
      (∀ st, _update_features (FeedVal.fstr "not_a_feature") st =
        ({ attr_hvac_features := some []
           attr_supported_features := ClimateEntityFeature.zero },
         [featureLogMsg "not_a_feature"]))) ∧
    (∀ l : List JsonVal,
      (featureFilter l).1 = (l.map pyStr).filter HVAC_FEATURES.contains ∧
      ∀ fv ∈ l, pyStr fv ∉ HVAC_FEATURES →
        featureLogMsg (pyStr fv) ∈ (featureFilter l).2) := by
  refine ⟨⟨fun st => rfl, fun st => rfl, fun st => rfl⟩, ?_⟩
  intro l
  induction l with
  | nil => simp [featureFilter]
  | cons fv rest ih =>
    constructor
    · by_cases h : pyStr fv ∈ HVAC_FEATURES <;>
        simp [featureFilter, h, List.filter_cons, ih.1]
    · intro g hg hbad
      rcases List.mem_cons.mp hg with hg | hg
      · subst hg
        simp [featureFilter, hbad]
      · by_cases h : pyStr fv ∈ HVAC_FEATURES <;>
          simp [featureFilter, h, ih.2 g hg hbad]

theorem update_features_vocabulary_witness :
    (featureFilter [JsonVal.jstr "bogus"]).1 = [] ∧
      featureLogMsg "bogus" ∈ (featureFilter [JsonVal.jstr "bogus"]).2 := by
  have h := update_features_vocabulary.2 [JsonVal.jstr "bogus"]
  exact ⟨by simpa using h.1,
    h.2 (JsonVal.jstr "bogus") (List.mem_singleton.mpr rfl) (by decide)⟩

/-- Helper: the error of `async_set_temperature` is exactly the result of
the setpoint-shape validation, which runs first. -/
theorem set_temperature_error_eq_validate (e : Entity) (m : Option HVACMode)
    (t tl th : Option ℚ) :
    (async_set_temperature e m t tl th).error =
      _validate_set_temperature_arguments e m t tl th := by
  unfold async_set_temperature
  cases hv : _validate_set_temperature_arguments e m t tl th <;> simp [hv]

/-- Helper: the validation fails exactly on the wrong setpoint shape for the
effective mode (the explicit argument when present, the current mode
otherwise). -/
theorem validate_set_temperature_spec (e : Entity) (m : Option HVACMode)
    (t tl th : Option ℚ) :
    _validate_set_temperature_arguments e m t tl th ≠ none ↔
      ((m.or e.attr_hvac_mode = some HVACMode.heat_cool ∧
          (tl = none ∨ th = none ∨ t ≠ none)) ∨
        (m.or e.attr_hvac_mode ≠ some HVACMode.heat_cool ∧
          (tl ≠ none ∨ th ≠ none))) := by
  unfold _validate_set_temperature_arguments
  cases m with
  | none =>
    by_cases ha : e.attr_hvac_mode = some HVACMode.heat_cool <;>
      cases t <;> cases tl <;> cases th <;> simp [ha, Option.or]
  | some hm =>
    by_cases hhm : hm = HVACMode.heat_cool <;>
      cases t <;> cases tl <;> cases th <;> simp [hhm, Option.or]

/-- C1: `async_set_temperature` raises a validation error exactly when,
relative to the effective mode (explicit `hvac_mode` argument when present,
current mode otherwise), the setpoint shape is wrong: in HEAT_COOL mode a
missing low or high bound or a supplied single setpoint; outside HEAT_COOL
a supplied low or high bound.  Any such error leaves the entity unchanged
and invokes no external action and no state publish: a rejected command
has no effect. -/
theorem set_temperature_validation (e : Entity) (m : Option HVACMode)
    (t tl th : Option ℚ) :
    ((async_set_temperature e m t tl th).error ≠ none ↔
      ((m.or e.attr_hvac_mode = some HVACMode.heat_cool ∧
          (tl = none ∨ th = none ∨ t ≠ none)) ∨
        (m.or e.attr_hvac_mode ≠ some HVACMode.heat_cool ∧
          (tl ≠ none ∨ th ≠ none)))) ∧
    ((async_set_temperature e m t tl th).error ≠ none →
      (async_set_temperature e m t tl th).entity = e ∧
        (async_set_temperature e m t tl th).events = []) := by
  constructor
  · rw [set_temperature_error_eq_validate]
    exact validate_set_temperature_spec e m t tl th
  · intro herr
    rw [set_temperature_error_eq_validate] at herr
    unfold async_set_temperature
    cases hv : _validate_set_temperature_arguments e m t tl th with
    | none => exact absurd hv herr
    | some msg => exact ⟨rfl, rfl⟩

theorem set_temperature_validation_witness :
    (async_set_temperature entity0 (some HVACMode.heat_cool) none none
          none).entity = entity0 ∧
      (async_set_temperature entity0 (some HVACMode.heat_cool) none none
          none).events = [] :=
  (set_temperature_validation entity0 (some HVACMode.heat_cool) none none
      none).2 (by decide)

/-- C10: calling `async_set_temperature` with an `hvac_mode` argument that
is not among the configured modes silently skips the mode change: the error
is still exactly the shape validation judged against the requested mode,
the entity's hvac mode is untouched, and a configured `set_temperature`
action still receives the requested mode in its run variables. -/
theorem set_temperature_unknown_mode (e : Entity) (hm : HVACMode)
    (t tl th : Option ℚ) (hmem : hm ∉ e.attr_hvac_modes) :
    (async_set_temperature e (some hm) t tl th).error =
      _validate_set_temperature_arguments e (some hm) t tl th ∧
    (async_set_temperature e (some hm) t tl th).entity.attr_hvac_mode =
      e.attr_hvac_mode ∧
    (e.set_temperature_script = true →
      (async_set_temperature e (some hm) t tl th).error = none →
      Event.runScript "set_temperature"
          [("hvac_mode", RunVar.vmode (some hm)),
           ("temperature", rvOfOpt t),
           ("target_temp_low", rvOfOpt tl),
           ("target_temp_high", rvOfOpt th)] ∈
        (async_set_temperature e (some hm) t tl th).events) := by
  refine ⟨set_temperature_error_eq_validate e (some hm) t tl th, ?_, ?_⟩
  · unfold async_set_temperature
    cases hv : _validate_set_temperature_arguments e (some hm) t tl th with
    | some msg => rfl
    | none => simp [hmem]
  · intro hs herr
    rw [set_temperature_error_eq_validate] at herr
    unfold async_set_temperature
    rw [herr]
    simp [hmem, hs]

theorem set_temperature_unknown_mode_witness :
    (async_set_temperature entity0 (some HVACMode.cool) (some 21) none
        none).entity.attr_hvac_mode = entity0.attr_hvac_mode :=
  (set_temperature_unknown_mode entity0 HVACMode.cool (some 21) none none
      (by decide)).2.1
